import Mathlib

/-!
Shallow embedding of the `ecs` crate (bedrock-crustaceans/ecs-experiment),
`src/crates/ecs/src/`: component storage (`component.rs`), entity registry
(`entity.rs`), event bus (`event.rs`), scheduler (`scheduler.rs`) and world
(`world.rs`).

Modelling conventions:
* `EntityId`, `TypeId` and event ids are `Nat`.
* `DashMap` is modelled as an association list with unique keys; `insert`
  replaces in place when the key exists and appends otherwise, matching the
  observable map semantics.
* `PersistentLock` (util.rs) is its `counter: AtomicUsize` field: `0` means
  free, `usizeMax` means write-locked, any other value is a reader count.
  `write()` succeeds iff the counter is `0`; `read()` succeeds iff the counter
  is not `usizeMax`.  Guards acquired and released inside one function leave
  the counter unchanged, so the embedded operations only test the counter.
* Fallible operations return the post-state together with an
  `Except EcsError _`; mutations that the Rust code performs before a failing
  lock acquisition or panic are kept in the post-state, as they are in Rust
  through `&self`.
* A Rust panic (out-of-bounds index, failed `expect`) is the error
  `EcsError.fault`.
-/

deriving instance DecidableEq for Except

namespace ECS

/-- Translation of `usize::MAX`; the `PersistentLock` counter value marking a write lock. -/
def usizeMax : Nat := 2 ^ 64 - 1

/-- Errors of the crate (`error.rs` / panics). `storageLocked` models
`EcsError::StorageLocked`; `fault` models a Rust panic (index out of bounds or
a failed `expect`). -/
inductive EcsError where
  | storageLocked : EcsError
  | fault : EcsError
deriving DecidableEq, Repr

/-- First value bound to key `k` in an association-list map (`DashMap::get`). -/
def mapGet {α : Type} (m : List (Nat × α)) (k : Nat) : Option α :=
  match m with
  | [] => none
  | (k', v) :: rest => if k' = k then some v else mapGet rest k

/-- Translation of `DashMap::insert`: replace in place when the key is present, append
otherwise. -/
def mapInsert {α : Type} (m : List (Nat × α)) (k : Nat) (v : α) : List (Nat × α) :=
  match m with
  | [] => [(k, v)]
  | (k', v') :: rest =>
      if k' = k then (k, v) :: rest else (k', v') :: mapInsert rest k v

/-- Translation of `DashMap::remove`: drop the entry with key `k`. -/
def mapErase {α : Type} (m : List (Nat × α)) (k : Nat) : List (Nat × α) :=
  match m with
  | [] => []
  | (k', v') :: rest => if k' = k then rest else (k', v') :: mapErase rest k

/-- Translation of `Vec::swap_remove i`: overwrite index `i` with the last element and pop.
Rust panics when `i` is out of bounds; callers below guard that case. -/
def listSwapRemove {α : Type} (l : List α) (i : Nat) : List α :=
  match l.getLast? with
  | none => l
  | some last => (l.set i last).dropLast

/-- Translation of `TypedStorage<T>` (component.rs): `map: DashMap<EntityId, usize>`,
`reverse_map: RwLock<Vec<EntityId>>`, `lock: PersistentLock`,
`storage: UnsafeCell<Vec<T>>`. -/
structure TypedStorage (α : Type) where
  map : List (Nat × Nat)
  reverse_map : List Nat
  lock : Nat
  storage : List α
deriving DecidableEq, Repr

/-- Translation of `TypedStorage::with`: a fresh column holding one entity. -/
def TypedStorage.with {α : Type} (e : Nat) (c : α) : TypedStorage α :=
  { map := [(e, 0)], reverse_map := [e], lock := 0, storage := [c] }

/-- Translation of `TypedStorage::insert` (component.rs lines 76–109).  When the entity is
already mapped the value at its slot is replaced under the write lock and the
old value returned; otherwise the value is pushed, the map gains
`entity ↦ new index` and the reverse vector gains the entity. -/
def TypedStorage.insert {α : Type} (s : TypedStorage α) (e : Nat) (c : α) :
    TypedStorage α × Except EcsError (Option α) :=
  match mapGet s.map e with
  | some index =>
      if s.lock = 0 then
        match s.storage[index]? with
        | some old => ({ s with storage := s.storage.set index c }, .ok (some old))
        | none => (s, .error .fault)
      else (s, .error .storageLocked)
  | none =>
      if s.lock = 0 then
        ({ s with
            storage := s.storage ++ [c],
            map := mapInsert s.map e s.storage.length,
            reverse_map := s.reverse_map ++ [e] }, .ok none)
      else (s, .error .storageLocked)

/-- Translation of `<TypedStorage as TypelessStorage>::remove` (component.rs lines 128–161).
`self.map.remove` happens before the lock acquisition, so a locked column
still loses the map entry.  On the hit path the value vector is
`swap_remove`d; if it became empty the reverse vector is cleared and the
function returns `false`; otherwise the id found at the *old* tail of the
reverse vector is remapped to the vacated slot, the reverse vector is
`swap_remove`d, and the function returns `true`.  On a miss it returns
whether the value vector is empty, under a read lock. -/
def TypedStorage.remove {α : Type} (s : TypedStorage α) (e : Nat) :
    TypedStorage α × Except EcsError Bool :=
  match mapGet s.map e with
  | some index =>
      let s1 := { s with map := mapErase s.map e }
      if s.lock = 0 then
        if index < s.storage.length then
          let storage1 := listSwapRemove s.storage index
          if storage1.isEmpty then
            ({ s1 with storage := storage1, reverse_map := [] }, .ok false)
          else
            match s.reverse_map.getLast? with
            | none => ({ s1 with storage := storage1 }, .error .fault)
            | some modifiedId =>
                ({ s1 with
                    storage := storage1,
                    map := mapInsert s1.map modifiedId index,
                    reverse_map := listSwapRemove s.reverse_map index }, .ok true)
        else (s1, .error .fault)
      else (s1, .error .storageLocked)
  | none =>
      if s.lock = usizeMax then (s, .error .storageLocked)
      else (s, .ok s.storage.isEmpty)

/-- Translation of `TypedStorage::has_entity`: lock-free map lookup. -/
def TypedStorage.has_entity {α : Type} (s : TypedStorage α) (e : Nat) : Bool :=
  (mapGet s.map e).isSome

/-- Translation of `Components` (component.rs): the `DashMap<TypeId, Box<dyn TypelessStorage>>`
of columns, with type ids as `Nat` and every column monomorphised to the same
value type `α` (the per-column dynamics do not depend on the value type). -/
abbrev Components (α : Type) := List (Nat × TypedStorage α)

/-- Translation of `Components::insert`: insert into the existing column for the type, or
create a fresh one-entry column. -/
def Components.insert {α : Type} (cs : Components α) (tid e : Nat) (c : α) :
    Components α × Except EcsError (Option α) :=
  match mapGet cs tid with
  | some store =>
      let r := store.insert e c
      (mapInsert cs tid r.1, r.2)
  | none => (mapInsert cs tid (TypedStorage.with e c), .ok none)

/-- Translation of `Components::has_component`. -/
def Components.has_component {α : Type} (cs : Components α) (tid e : Nat) : Bool :=
  match mapGet cs tid with
  | some store => store.has_entity e
  | none => false

/-- Translation of `Components::despawn` (component.rs lines 197–203):
`map.retain(|_, store| !store.remove(entity).expect(..))` — every column is
asked to remove the entity, the failed `expect` propagates as a panic, and a
column is *kept* exactly when its `remove` returned `false`. -/
def Components.despawn {α : Type} (cs : Components α) (e : Nat) :
    Except EcsError (Components α) :=
  match cs with
  | [] => .ok []
  | (tid, st) :: rest =>
      let r := st.remove e
      match r.2 with
      | .error err => .error err
      | .ok b =>
          match Components.despawn rest e with
          | .error err => .error err
          | .ok rest' => .ok (if b then rest' else (tid, r.1) :: rest')

/-- Column well-formedness from the spec (§3): the three containers agree in
size and `reverse` inverts `map`. -/
def TypedStorage.wf {α : Type} (s : TypedStorage α) : Prop :=
  s.storage.length = s.reverse_map.length ∧
  s.reverse_map.length = s.map.length ∧
  ∀ p ∈ s.map, s.reverse_map[p.2]? = some p.1

instance {α : Type} (s : TypedStorage α) : Decidable s.wf := by
  unfold TypedStorage.wf; infer_instance

/-- The entity registry bitset (`entity.rs`): `indices: RwLock<BitVec>`,
modelled as a list of bits. -/
abbrev Entities := List Bool

/-- Translation of `find_map` over the enumerated bits of the bitset: index of the first
cleared bit (`Entities::alloc`, the `gap` computation). -/
def findGap (bs : List Bool) : Option Nat :=
  match bs with
  | [] => none
  | b :: rest => if b then (findGap rest).map (· + 1) else some 0

/-- Translation of `Entities::alloc` (entity.rs lines 64–86): return the index of the lowest
cleared bit and set it, or push a set bit at the end when every bit is set. -/
def Entities.alloc (bs : Entities) : Nat × Entities :=
  match findGap bs with
  | some gap => (gap, bs.set gap true)
  | none => (bs.length, bs ++ [true])

/-- Translation of `Entities::free`: clear the bit.  (`BitVec::set` panics out of range; the
callers below stay in range, where `List.set` agrees.) -/
def Entities.free (bs : Entities) (e : Nat) : Entities :=
  bs.set e false

/-- Translation of `Entities::free_many`: clear each bit under one exclusive acquisition. -/
def Entities.free_many (bs : Entities) (es : List Nat) : Entities :=
  es.foldl (fun b e => b.set e false) bs

/-- An id is live iff its bit is set. -/
def Entities.isLive (bs : Entities) (i : Nat) : Bool :=
  (bs[i]?).getD false

/-- Translation of `Scheduler::tick_despawn` (scheduler.rs lines 252–260): free every queued
id in the bitset, then run `Components::despawn` for each queued id (the
`retain` that empties `despawn_queue`); the queue ends empty. -/
def Scheduler.tick_despawn {α : Type} (bs : Entities) (cs : Components α)
    (queue : List Nat) : Entities × Except EcsError (Components α) :=
  (Entities.free_many bs queue,
   queue.foldl
     (fun acc e =>
       match acc with
       | .error err => .error err
       | .ok cs0 => Components.despawn cs0 e)
     (.ok cs))

/-- C1: the world state used to exercise the despawn drain: one column
(type id `0`) holding entity `1` at slot `0` (value `10`) and entity `2` at
slot `1` (value `20`); ids `1` and `2` live. -/
def c1Column : TypedStorage Nat :=
  { map := [(1, 0), (2, 1)], reverse_map := [1, 2], lock := 0, storage := [10, 20] }

example : c1Column.wf := by decide

/-- C1, refuting evaluation:  Draining a deferred despawn of entity `1`
from the live set `{1, 2}` with the single column `c1Column` does free id `1`,
but it deletes the *entire column*: `Components::despawn` keeps a column iff
`remove` returned `false`, and `remove` returns `true` exactly when the column
stays non-empty (inverted against its own doc comment), so entity `2` — never
despawned — loses its component and its id-to-slot mapping.  The claim says
every other entity keeps its components and mapping unchanged. -/
theorem C1_despawn_deletes_sibling_column :
    (Scheduler.tick_despawn [false, true, true] [(0, c1Column)] [1]).2 = .ok [] ∧
    Entities.isLive (Scheduler.tick_despawn [false, true, true] [(0, c1Column)] [1]).1 1
      = false ∧
    Components.has_component [(0, c1Column)] 0 2 = true ∧
    Components.has_component ([] : Components Nat) 0 2 = false := by
  decide

/-- C2/C3/C4 column: entity `1` at slot `0`, entity `2` at slot `1`. -/
def twoEntityColumn : TypedStorage Nat :=
  { map := [(1, 0), (2, 1)], reverse_map := [1, 2], lock := 0, storage := [10, 20] }

/-- C2, refuting evaluation:  Removing entity `2` — the entity occupying
the tail slot — from a well-formed two-entity column leaves a state violating
the structural invariants: the code reads the tail of the reverse vector
*before* compacting it, so the removed entity itself is re-inserted into the
map (`map = {1 ↦ 0, 2 ↦ 1}` while `dense = reverse = [·]` have length 1, and
`map(2) = 1` has no reverse slot). -/
theorem C2_remove_tail_breaks_invariants :
    twoEntityColumn.wf ∧
    (TypedStorage.remove twoEntityColumn 2).2 = .ok true ∧
    ¬ (TypedStorage.remove twoEntityColumn 2).1.wf ∧
    (TypedStorage.remove twoEntityColumn 2).1.map = [(1, 0), (2, 1)] ∧
    (TypedStorage.remove twoEntityColumn 2).1.storage.length = 1 := by
  decide

/-- C3 column: a single entity `7` at slot `0`. -/
def oneEntityColumn : TypedStorage Nat :=
  { map := [(7, 0)], reverse_map := [7], lock := 0, storage := [99] }

/-- C3, refuting evaluation:  `remove` is documented (and claimed) to
return `true` iff the column became empty, but the code returns the opposite:
removing the only entity empties the column and returns `false`; removing one
of two entities leaves the column non-empty and returns `true`. -/
theorem C3_remove_return_inverted :
    (TypedStorage.remove oneEntityColumn 7).2 = .ok false ∧
    (TypedStorage.remove oneEntityColumn 7).1.storage = [] ∧
    (TypedStorage.remove twoEntityColumn 1).2 = .ok true ∧
    (TypedStorage.remove twoEntityColumn 1).1.storage ≠ [] := by
  decide

/-- C4 column: entity `1` alone at slot `0`; entity `2` owns nothing. -/
def c4Column : TypedStorage Nat :=
  { map := [(1, 0)], reverse_map := [1], lock := 0, storage := [10] }

/-- C4, refuting evaluation:  Entity `2` has no component in `c4Column`;
inserting one for it and removing it again should restore the original
observable state, but the tail-removal slip re-inserts `2 ↦ 1` into the map,
so the map (and hence the id-to-slot mapping) differs from the pre-insert
state even though no column was emptied or pruned. -/
theorem C4_insert_remove_not_restored :
    c4Column.has_entity 2 = false ∧
    (TypedStorage.remove (TypedStorage.insert c4Column 2 20).1 2).1.map
      = [(1, 0), (2, 1)] ∧
    (TypedStorage.remove (TypedStorage.insert c4Column 2 20).1 2).1.map
      ≠ c4Column.map := by
  decide

/-- Translation of `BorrowedTypeDescriptor` (scheduler.rs): one `(type_id, access)` pair of a
query, `exclusive` marking `&mut` access. -/
structure BorrowedTypeDescriptor where
  exclusive : Bool
  typeId : Nat
deriving DecidableEq, Repr

/-- Translation of `SystemParamDescriptor` (scheduler.rs lines 25–33). -/
inductive SystemParamDescriptor where
  | unit
  | eventReader
  | eventWriter
  | stateParam
  | query : List BorrowedTypeDescriptor → SystemParamDescriptor
  | res : Nat → SystemParamDescriptor
  | resMut : Nat → SystemParamDescriptor
deriving DecidableEq, Repr

/-- Translation of `SystemDescriptor` (scheduler.rs lines 36–39). -/
structure SystemDescriptor where
  id : Nat
  deps : List SystemParamDescriptor
deriving DecidableEq, Repr

/-- The `(type_id, access)` pairs a parameter contributes to scheduling:
queries contribute their borrow list, `Res`/`ResMut` the resource type;
readers, writers, per-system state and unit contribute nothing (scheduler.rs
doc comment on `SystemParamDescriptor`). -/
def SystemParamDescriptor.accesses : SystemParamDescriptor → List BorrowedTypeDescriptor
  | .query l => l
  | .res t => [{ exclusive := false, typeId := t }]
  | .resMut t => [{ exclusive := true, typeId := t }]
  | _ => []

/-- A system's access set: the union of its parameters' accesses. -/
def SystemDescriptor.accesses (s : SystemDescriptor) : List BorrowedTypeDescriptor :=
  (s.deps.map SystemParamDescriptor.accesses).flatten

/-- The claim's conflict relation: two access sets conflict iff they mention a
common `type_id` and at least one of the two accesses is exclusive. -/
def accessConflict (a b : List BorrowedTypeDescriptor) : Bool :=
  a.any fun x => b.any fun y => x.typeId = y.typeId && (x.exclusive || y.exclusive)

/-- Translation of `Schedule::run` (scheduler.rs lines 159–192): the dispatch loop pushes
*every* registered system into one `FuturesUnordered` batch which is then
awaited concurrently.  No grouping, ordering or conflict analysis happens:
the conflict-aware `schedule_graph` is an unimplemented `todo!()` stub that
`run` never calls.  The single concurrently-dispatched wave is therefore the
whole system list. -/
def Schedule.dispatchWave (systems : List SystemDescriptor) : List SystemDescriptor :=
  systems

/-- C5: two systems that both declare `Query<&mut T>` for the same component
type (type id `7`). -/
def exclusiveSysA : SystemDescriptor :=
  { id := 0, deps := [.query [{ exclusive := true, typeId := 7 }]] }

/-- C5: the second exclusive system over type id `7`. -/
def exclusiveSysB : SystemDescriptor :=
  { id := 1, deps := [.query [{ exclusive := true, typeId := 7 }]] }

/-- C5, refuting evaluation:  With two systems both requesting exclusive
access to component type `7`, the single wave that `Schedule::run` dispatches
concurrently contains both of them, and their access sets conflict.  The
scheduler performs no serialization (its schedule graph is an unimplemented
stub), contradicting the claim that conflicting systems never run
concurrently. -/
theorem C5_conflicting_systems_dispatched_concurrently :
    exclusiveSysA ∈ Schedule.dispatchWave [exclusiveSysA, exclusiveSysB] ∧
    exclusiveSysB ∈ Schedule.dispatchWave [exclusiveSysA, exclusiveSysB] ∧
    exclusiveSysA.id ≠ exclusiveSysB.id ∧
    accessConflict exclusiveSysA.accesses exclusiveSysB.accesses = true := by
  decide

/-- An event slot (event.rs): the payload and its `remaining_readers`
counter. -/
structure EventSlot (α : Type) where
  rem : Nat
  event : α
deriving DecidableEq, Repr

/-- Translation of `EventBus<E>` (event.rs): subscriber count, next event id, and the map of
unread events. -/
structure EventBus (α : Type) where
  readers : Nat
  nextId : Nat
  events : List (Nat × EventSlot α)
deriving DecidableEq, Repr

/-- Translation of `EventBus::insert` (event.rs lines 31–39): allocate the next id and store
a slot whose `remaining_readers` is the current subscriber count. -/
def EventBus.insert {α : Type} (bus : EventBus α) (e : α) : EventBus α × Nat :=
  ({ bus with
      nextId := bus.nextId + 1,
      events := mapInsert bus.events bus.nextId { event := e, rem := bus.readers } },
   bus.nextId)

/-- The state of `Events` for one event type `E` (event.rs): `none` when the
`storage` map has no bus for `E` yet. -/
abbrev Events (α : Type) := Option (EventBus α)

/-- Translation of `Events::insert` (event.rs lines 62–91).  With an existing bus the event
is stored through `EventBus::insert`; with no bus a fresh one is created with
`readers = 0` and `next_id = 1`, the payload is *not* stored ("there are no
readers, so this message will never be read"), and id `0` is returned. -/
def Events.insert {α : Type} (ev : Events α) (e : α) : Events α × Nat :=
  match ev with
  | some bus =>
      let r := bus.insert e
      (some r.1, r.2)
  | none => (some { readers := 0, nextId := 1, events := [] }, 0)

/-- Translation of `Events::get` (event.rs lines 93–111): look the slot up by id; on a hit
clone the payload, `fetch_sub(1)` the slot's `remaining_readers` (wrapping at
`2^64` like `AtomicUsize`), and remove the slot when the *previous* value was
`1`; on a miss change nothing. -/
def Events.get {α : Type} (ev : Events α) (id : Nat) : Events α × Option α :=
  match ev with
  | none => (none, none)
  | some bus =>
      match mapGet bus.events id with
      | none => (some bus, none)
      | some slot =>
          let events1 :=
            if slot.rem = 1 then mapErase bus.events id
            else mapInsert bus.events id
                  { slot with rem := (slot.rem + usizeMax) % (usizeMax + 1) }
          (some { bus with events := events1 }, some slot.event)

/-- Translation of `Events::add_reader` (event.rs lines 116–134): bump the subscriber count,
creating a fresh bus with one reader and `next_id = 0` when none exists. -/
def Events.add_reader {α : Type} (ev : Events α) : Events α :=
  match ev with
  | some bus => some { bus with readers := bus.readers + 1 }
  | none => some { readers := 1, nextId := 0, events := [] }

/-- Translation of `Events::remove_reader` (event.rs lines 137–144): `fetch_sub(1)` on the
subscriber count (wrapping like `AtomicUsize`); no bus, no change. -/
def Events.remove_reader {α : Type} (ev : Events α) : Events α :=
  match ev with
  | some bus =>
      some { bus with readers := (bus.readers + usizeMax) % (usizeMax + 1) }
  | none => none

/-- Translation of `EventIterator::next` (event.rs lines 246–254): read the event at the
cursor (`last_read`); advance the cursor by one only when an event was
returned.  Returns (new bus state, new cursor, item). -/
def EventIterator.next {α : Type} (ev : Events α) (cursor : Nat) :
    Events α × Nat × Option α :=
  let r := Events.get ev cursor
  match r.2 with
  | some item => (r.1, cursor + 1, some item)
  | none => (r.1, cursor, none)

/-- The slots of the bus for `E`, empty when no bus exists. -/
def Events.slots {α : Type} (ev : Events α) : List (Nat × EventSlot α) :=
  match ev with
  | some bus => bus.events
  | none => []

/-- The subscriber count for `E`, zero when no bus exists. -/
def Events.readerCount {α : Type} (ev : Events α) : Nat :=
  match ev with
  | some bus => bus.readers
  | none => 0

/-- C6: a bus whose only reader subscribed and then unsubscribed: subscriber
count `0`, `next_id` `0`, no pending slots. -/
def zeroReaderBus : Events Nat :=
  Events.remove_reader (Events.add_reader (none : Events Nat))

/-- C6, counterexample:  The subscriber count of `zeroReaderBus` is zero,
yet writing payload `42` on it stores a slot holding that payload (with
`remaining_readers = 0`): the write is only discarded when no bus exists at
all.  This refutes the claim that a write with zero current subscribers
leaves no slot holding the payload. -/
theorem C6_zero_subscriber_write_not_discarded :
    Events.readerCount zeroReaderBus = 0 ∧
    mapGet (Events.slots (Events.insert zeroReaderBus 42).1) 0
      = some { rem := 0, event := 42 } := by
  decide

/-- A gap found by `findGap` holds a cleared bit. -/
theorem findGap_get {bs : List Bool} {i : Nat} (h : findGap bs = some i) :
    bs[i]? = some false := by
  induction bs generalizing i with
  | nil => simp [findGap] at h
  | cons b rest ih =>
      by_cases hb : b
      · simp [findGap, hb] at h
        obtain ⟨i', hi', rfl⟩ := h
        simpa using ih hi'
      · simp [findGap, hb] at h
        subst h
        simp [hb]

/-- Bits below the gap found by `findGap` are all set. -/
theorem findGap_min {bs : List Bool} {i : Nat} (h : findGap bs = some i) :
    ∀ j, j < i → bs[j]? = some true := by
  induction bs generalizing i with
  | nil => simp [findGap] at h
  | cons b rest ih =>
      by_cases hb : b
      · simp [findGap, hb] at h
        obtain ⟨i', hi', rfl⟩ := h
        intro j hj
        cases j with
        | zero => simp [hb]
        | succ j' => simpa using ih hi' j' (by omega)
      · simp [findGap, hb] at h
        omega

/-- When `findGap` finds no gap, every bit is set. -/
theorem findGap_none {bs : List Bool} (h : findGap bs = none) :
    ∀ j, j < bs.length → bs[j]? = some true := by
  induction bs with
  | nil => simp
  | cons b rest ih =>
      by_cases hb : b
      · simp [findGap, hb] at h
        intro j hj
        cases j with
        | zero => simp [hb]
        | succ j' => simpa using ih h j' (by simpa using hj)
      · simp [findGap, hb] at h

/-- The id returned by `alloc` is live afterwards. -/
theorem alloc_isLive_after (bs : Entities) :
    Entities.isLive (Entities.alloc bs).2 (Entities.alloc bs).1 = true := by
  unfold Entities.alloc
  cases hg : findGap bs with
  | some gap =>
      have hlt : gap < bs.length := (List.getElem?_eq_some.mp (findGap_get hg)).1
      simp [Entities.isLive, List.getElem?_set_self hlt]
  | none =>
      simp only [Entities.isLive]
      rw [List.getElem?_append_right (le_refl _)]
      simp

/-- The id returned by `alloc` was not live beforehand. -/
theorem alloc_not_live_before (bs : Entities) :
    Entities.isLive bs (Entities.alloc bs).1 = false := by
  unfold Entities.alloc
  cases hg : findGap bs with
  | some gap => simp [Entities.isLive, findGap_get hg]
  | none =>
      have : bs[bs.length]? = none := by simp
      simp [Entities.isLive, this]

/-- Every id below the one returned by `alloc` was already live. -/
theorem alloc_minimal (bs : Entities) :
    ∀ j, j < (Entities.alloc bs).1 → Entities.isLive bs j = true := by
  unfold Entities.alloc
  cases hg : findGap bs with
  | some gap =>
      intro j hj
      simp only at hj
      simp [Entities.isLive, findGap_min hg j hj]
  | none =>
      intro j hj
      simp only at hj
      simp [Entities.isLive, findGap_none hg j hj]

/-- Translation of `alloc` changes no bit other than the returned one. -/
theorem alloc_frame (bs : Entities) :
    ∀ j, j ≠ (Entities.alloc bs).1 →
      Entities.isLive (Entities.alloc bs).2 j = Entities.isLive bs j := by
  unfold Entities.alloc
  cases hg : findGap bs with
  | some gap =>
      intro j hj
      simp only at hj
      simp [Entities.isLive, List.getElem?_set_ne (Ne.symm hj)]
  | none =>
      intro j hj
      simp only at hj
      rcases Nat.lt_or_ge j bs.length with hlt | hge
      · simp [Entities.isLive, List.getElem?_append_left hlt]
      · have h1 : bs[j]? = none := by
          rw [List.getElem?_eq_none]; exact hge
        have h2 : (bs ++ [true])[j]? = none := by
          rw [List.getElem?_eq_none]
          simp only [List.length_append, List.length_cons, List.length_nil]
          omega
        simp [Entities.isLive, h1, h2]

/-- C8: `Entities::alloc` returns the index of the lowest cleared bit and
sets exactly that bit (appending a set bit when none is cleared): the
returned id is live immediately after the call, was not live before it,
every smaller id was already live, and every other id's liveness is
unchanged. -/
theorem C8_alloc_lowest_cleared (bs : Entities) :
    Entities.isLive (Entities.alloc bs).2 (Entities.alloc bs).1 = true ∧
    Entities.isLive bs (Entities.alloc bs).1 = false ∧
    (∀ j, j < (Entities.alloc bs).1 → Entities.isLive bs j = true) ∧
    (∀ j, j ≠ (Entities.alloc bs).1 →
      Entities.isLive (Entities.alloc bs).2 j = Entities.isLive bs j) :=
  ⟨alloc_isLive_after bs, alloc_not_live_before bs, alloc_minimal bs, alloc_frame bs⟩

/-- C8, witness: on the bitset `[true, false, true]` the allocator returns
id `1` (the lowest cleared bit), which is live afterwards, was not live
before, and id `0` below it was already live. -/
theorem C8_alloc_lowest_cleared_witness :
    Entities.isLive (Entities.alloc [true, false, true]).2
        (Entities.alloc [true, false, true]).1 = true ∧
    Entities.isLive [true, false, true] (Entities.alloc [true, false, true]).1 = false ∧
    Entities.isLive [true, false, true] 0 = true ∧
    Entities.isLive (Entities.alloc [true, false, true]).2 2
      = Entities.isLive [true, false, true] 2 :=
  ⟨(C8_alloc_lowest_cleared [true, false, true]).1,
   (C8_alloc_lowest_cleared [true, false, true]).2.1,
   (C8_alloc_lowest_cleared [true, false, true]).2.2.1 0 (by decide),
   (C8_alloc_lowest_cleared [true, false, true]).2.2.2 2 (by decide)⟩

/-- Looking up the key just written by `mapInsert` yields the new value. -/
theorem mapGet_mapInsert_self {α : Type} (m : List (Nat × α)) (k : Nat) (v : α) :
    mapGet (mapInsert m k v) k = some v := by
  induction m with
  | nil => simp [mapInsert, mapGet]
  | cons p rest ih =>
      obtain ⟨k', v'⟩ := p
      by_cases h : k' = k <;> simp [mapInsert, mapGet, h, ih]

/-- Translation of `mapInsert` leaves other keys unchanged. -/
theorem mapGet_mapInsert_ne {α : Type} (m : List (Nat × α)) {k j : Nat} (v : α)
    (h : k ≠ j) : mapGet (mapInsert m k v) j = mapGet m j := by
  induction m with
  | nil => simp [mapInsert, mapGet, h]
  | cons p rest ih =>
      obtain ⟨k', v'⟩ := p
      by_cases h' : k' = k
      · subst h'; simp [mapInsert, mapGet, h, ih]
      · simp only [mapInsert, if_neg h', mapGet]
        by_cases h'' : k' = j <;> simp [h'', ih]

/-- C6, amended: a write is discarded exactly when no bus for `E` exists
yet (no reader ever subscribed): then a fresh bus with zero subscribers,
`next_id = 1` and no slots is created and id `0` is returned without storing
the payload.  When a bus exists — even with zero current subscribers — the
payload is stored under the freshly allocated id with
`remaining_readers` equal to the current subscriber count. -/
theorem C6_write_discard_amended {α : Type} (ev : Events α) (e : α) :
    (ev = none →
      (Events.insert ev e).1 = some { readers := 0, nextId := 1, events := [] } ∧
      Events.slots (Events.insert ev e).1 = [] ∧
      (Events.insert ev e).2 = 0) ∧
    (∀ bus, ev = some bus →
      mapGet (Events.slots (Events.insert ev e).1) bus.nextId
        = some { event := e, rem := bus.readers } ∧
      (Events.insert ev e).2 = bus.nextId ∧
      Events.readerCount (Events.insert ev e).1 = bus.readers) := by
  constructor
  · rintro rfl
    simp [Events.insert, Events.slots]
  · rintro bus rfl
    refine ⟨?_, rfl, rfl⟩
    simp only [Events.insert, EventBus.insert, Events.slots]
    exact mapGet_mapInsert_self bus.events bus.nextId { event := e, rem := bus.readers }

/-- C6, amended, witness: writing on the zero-subscriber bus
`zeroReaderBus` stores the payload `9` at id `0` with
`remaining_readers = 0`, and writing with no bus at all returns id `0` and
stores nothing. -/
theorem C6_write_discard_amended_witness :
    (mapGet (Events.slots (Events.insert zeroReaderBus 9).1) 0
        = some { event := 9, rem := 0 } ∧
      (Events.insert zeroReaderBus 9).2 = 0 ∧
      Events.readerCount (Events.insert zeroReaderBus 9).1 = 0) ∧
    ((Events.insert (none : Events Nat) 9).1
        = some { readers := 0, nextId := 1, events := [] } ∧
      Events.slots (Events.insert (none : Events Nat) 9).1 = [] ∧
      (Events.insert (none : Events Nat) 9).2 = 0) :=
  ⟨(C6_write_discard_amended zeroReaderBus 9).2
      { readers := 0, nextId := 0, events := [] } (by decide),
   (C6_write_discard_amended (none : Events Nat) 9).1 rfl⟩

/-- The wrapping decrement of a `usize` value reaches `0` exactly from `1`. -/
theorem wrapDec_eq_zero_iff {rem : Nat} (h : rem < usizeMax + 1) :
    (rem + usizeMax) % (usizeMax + 1) = 0 ↔ rem = 1 := by
  have hm : usizeMax + 1 = 2 ^ 64 := by norm_num [usizeMax]
  rw [hm] at h ⊢
  unfold usizeMax
  constructor
  · intro h0
    rcases Nat.eq_zero_or_pos rem with hr | hr
    · subst hr
      rw [Nat.mod_eq_of_lt (by norm_num)] at h0
      norm_num at h0
    · have : rem + (2 ^ 64 - 1) - 2 ^ 64 < 2 ^ 64 := by omega
      have heq : (rem + (2 ^ 64 - 1)) % 2 ^ 64 = rem - 1 := by
        rw [Nat.mod_eq_sub_mod (by omega), Nat.mod_eq_of_lt (by omega)]
        omega
      omega
  · rintro rfl
    norm_num

/-- C7: one `EventIterator::next` step at cursor `c`.  If a slot with id
`c` exists, the read returns (a clone of) its payload, the slot's
`remaining_readers` is decremented by one (with `AtomicUsize` wrap-around),
the cursor advances by exactly one, and the slot is deleted exactly when the
decremented counter is zero.  If no slot with id `c` exists, the read returns
nothing and neither the cursor nor the bus changes. -/
theorem C7_read_next_spec {α : Type} (bus : EventBus α) (c : Nat) :
    (∀ slot, mapGet bus.events c = some slot → slot.rem < usizeMax + 1 →
      EventIterator.next (some bus) c
        = (some { bus with events :=
              (if (slot.rem + usizeMax) % (usizeMax + 1) = 0 then mapErase bus.events c
               else mapInsert bus.events c
                    ({ slot with rem := (slot.rem + usizeMax) % (usizeMax + 1) })) },
           c + 1, some slot.event)) ∧
    (mapGet bus.events c = none →
      EventIterator.next (some bus) c = (some bus, c, none)) := by
  constructor
  · intro slot hs hlt
    simp only [EventIterator.next, Events.get, hs]
    by_cases h1 : slot.rem = 1
    · have hz : (slot.rem + usizeMax) % (usizeMax + 1) = 0 :=
        (wrapDec_eq_zero_iff hlt).mpr h1
      rw [h1] at hz
      simp [h1, hz]
    · have hz : (slot.rem + usizeMax) % (usizeMax + 1) ≠ 0 := fun hc =>
        h1 ((wrapDec_eq_zero_iff hlt).mp hc)
      simp [h1, hz]
  · intro h
    simp [EventIterator.next, Events.get, h]

/-- C7 witness input: a bus with one pending slot (id `0`, two remaining
readers, payload `5`). -/
def c7Bus : EventBus Nat :=
  { readers := 2, nextId := 1, events := [(0, { rem := 2, event := 5 })] }

/-- C7, witness: reading `c7Bus` at cursor `0` returns payload `5`,
advances the cursor to `1`, and keeps the slot with its counter decremented
(`2 → 1`, not yet zero); reading at cursor `1` (no slot) returns nothing and
changes nothing. -/
theorem C7_read_next_spec_witness :
    (EventIterator.next (some c7Bus) 0
      = (some { c7Bus with events :=
            (if ((2 : Nat) + usizeMax) % (usizeMax + 1) = 0 then mapErase c7Bus.events 0
             else mapInsert c7Bus.events 0
                  ({ rem := ((2 : Nat) + usizeMax) % (usizeMax + 1), event := 5 })) },
         1, some 5)) ∧
    EventIterator.next (some c7Bus) 1 = (some c7Bus, 1, none) :=
  ⟨(C7_read_next_spec c7Bus 0).1 { rem := 2, event := 5 } (by decide)
      (by norm_num [usizeMax]),
   (C7_read_next_spec c7Bus 1).2 (by decide)⟩

/-- C9: inserting a value for an entity that already owns a component of
this type replaces the stored value in place (under the column's write lock)
and returns the previous value; the id-to-slot map, the reverse index, and the
value-vector length are unchanged, no other slot's value changes, and the
entity's slot now holds the new value. -/
theorem C9_insert_replaces_in_place {α : Type} (s : TypedStorage α) (e i : Nat)
    (v old : α) (hm : mapGet s.map e = some i) (hold : s.storage[i]? = some old)
    (hl : s.lock = 0) :
    TypedStorage.insert s e v
      = ({ s with storage := s.storage.set i v }, .ok (some old)) ∧
    (TypedStorage.insert s e v).1.map = s.map ∧
    (TypedStorage.insert s e v).1.reverse_map = s.reverse_map ∧
    (TypedStorage.insert s e v).1.storage.length = s.storage.length ∧
    (∀ j, j ≠ i → (TypedStorage.insert s e v).1.storage[j]? = s.storage[j]?) ∧
    (TypedStorage.insert s e v).1.storage[i]? = some v := by
  have hi : i < s.storage.length := (List.getElem?_eq_some.mp hold).1
  have hmain : TypedStorage.insert s e v
      = ({ s with storage := s.storage.set i v }, .ok (some old)) := by
    simp [TypedStorage.insert, hm, hl, hold]
  refine ⟨hmain, ?_, ?_, ?_, ?_, ?_⟩
  · rw [hmain]
  · rw [hmain]
  · rw [hmain]; simp
  · intro j hj
    rw [hmain]
    exact List.getElem?_set_ne (Ne.symm hj)
  · rw [hmain]
    exact List.getElem?_set_self hi

/-- C9, witness: in a column where entity `3` owns value `7` at slot `0`,
inserting `9` for entity `3` replaces the value in place and returns the old
value `7`, with map and reverse index untouched. -/
theorem C9_insert_replaces_in_place_witness :
    TypedStorage.insert
        { map := [(3, 0)], reverse_map := [3], lock := 0, storage := [(7 : Nat)] } 3 9
      = ({ map := [(3, 0)], reverse_map := [3], lock := 0, storage := [9] },
         .ok (some 7)) := by
  have h := (C9_insert_replaces_in_place
      { map := [(3, 0)], reverse_map := [3], lock := 0, storage := [(7 : Nat)] }
      3 0 9 7 (by decide) (by decide) rfl).1
  simpa using h

/-- Translation of `World` (world.rs): the parts of the world state that `spawn` touches. -/
structure World (α : Type) where
  entities : Entities
  components : Components α
deriving DecidableEq, Repr

/-- A spawn bundle, monomorphised like `Components`: the list of
`(type id, component value)` pairs the bundle inserts, in order. -/
abbrev Bundle (α : Type) := List (Nat × α)

/-- Translation of `SpawnBundle::insert_into` (component.rs lines 28–39 and the smaller
impls): insert each component in order, stopping at the first error (`?`);
mutations made before the failure are kept. -/
def SpawnBundle.insert_into {α : Type} (cs : Components α) (bundle : Bundle α)
    (e : Nat) : Components α × Except EcsError Unit :=
  match bundle with
  | [] => (cs, .ok ())
  | (tid, v) :: rest =>
      let r := Components.insert cs tid e v
      match r.2 with
      | .error err => (r.1, .error err)
      | .ok _ => SpawnBundle.insert_into r.1 rest e

/-- Translation of `World::spawn` (world.rs lines 22–30): allocate an id, insert the bundle
*discarding its `EcsResult`*, and return the entity handle with the allocated
id unconditionally. -/
def World.spawn {α : Type} (w : World α) (bundle : Bundle α) : World α × Nat :=
  let a := Entities.alloc w.entities
  let r := SpawnBundle.insert_into w.components bundle a.1
  ({ entities := a.2, components := r.1 }, a.1)

/-- C10: `World::spawn` ignores the result of inserting the bundle: for
*every* world and bundle — including bundles whose insertion fails on a
locked column, in which case only the components inserted before the failure
remain — it returns the freshly allocated id, that id is live in the
resulting world, and the component store is exactly whatever
`insert_into` left behind. -/
theorem C10_spawn_discards_insert_errors {α : Type} (w : World α) (bundle : Bundle α) :
    (World.spawn w bundle).2 = (Entities.alloc w.entities).1 ∧
    Entities.isLive (World.spawn w bundle).1.entities (World.spawn w bundle).2 = true ∧
    (World.spawn w bundle).1.components
      = (SpawnBundle.insert_into w.components bundle (Entities.alloc w.entities).1).1 :=
  ⟨rfl, alloc_isLive_after w.entities, rfl⟩

example :
    (SpawnBundle.insert_into
        [(0, { map := [(5, 0)], reverse_map := [5], lock := usizeMax, storage := [(1 : Nat)] })]
        [(0, 3)] 0).2 = .error .storageLocked ∧
    (World.spawn
        { entities := [],
          components :=
            [(0, { map := [(5, 0)], reverse_map := [5], lock := usizeMax, storage := [(1 : Nat)] })] }
        [(0, 3)]).2 = 0 ∧
    Entities.isLive
      (World.spawn
        { entities := [],
          components :=
            [(0, { map := [(5, 0)], reverse_map := [5], lock := usizeMax, storage := [(1 : Nat)] })] }
        [(0, 3)]).1.entities 0 = true := by
  decide

end ECS
